import Mathlib

/-!
A shallow embedding of the blog application in `blogicum/blog/models.py` and
`blogicum/blog/views.py`, together with proofs about its visibility predicate,
its request handlers and its deletion semantics.

Conventions of the embedding:
* Database timestamps (`pub_date`, `created_at`) and the current time
  `timezone.now()` are natural numbers.
* A request's `request.user` is an `Option Nat`: `some uid` is an authenticated
  user, `none` is the anonymous user (Django's `AnonymousUser`); equality tests
  against a stored author follow Django, where the anonymous user is equal to
  no stored user.
* A Django queryset is a `List` of rows; `filter` keeps the rows matching the
  lookup, `order_by` is a stable sort (`List.insertionSort`), and
  `annotate(comment_count=...)` does not change which rows are returned, so the
  count is a separate function.
* ORM lookups that traverse a nullable foreign key (`category__is_published`)
  follow SQL join semantics: a row whose foreign key is NULL matches no
  condition on the joined table.
-/

/-- A row of `blog.models.Category` (`models.py`): title, description, unique
slug, plus the `is_published` flag and `created_at` stamp inherited from
`PublishedAndDateModel`. -/
structure CategoryRec where
  id : Nat
  title : String
  description : String
  slug : String
  is_published : Bool
  created_at : Nat
deriving DecidableEq, Repr

/-- A row of `blog.models.Location` (`models.py`): a name plus the
`PublishedAndDateModel` fields. -/
structure LocationRec where
  id : Nat
  name : String
  is_published : Bool
  created_at : Nat
deriving DecidableEq, Repr

/-- A row of `blog.models.Post` (`models.py`): author (non-null FK to User,
CASCADE), title, text, `pub_date`, nullable FKs to Location and Category
(both SET_NULL), plus the `PublishedAndDateModel` fields. -/
structure PostRec where
  id : Nat
  author : Nat
  title : String
  text : String
  pub_date : Nat
  location : Option Nat
  category : Option Nat
  is_published : Bool
  created_at : Nat
deriving DecidableEq, Repr

/-- A row of `blog.models.Comment` (`models.py`): text, FK to Post (CASCADE),
`created_at`, non-null FK to User (CASCADE). -/
structure CommentRec where
  id : Nat
  text : String
  post : Nat
  created_at : Nat
  author : Nat
deriving DecidableEq, Repr

/-- A row of the framework-provided User model, as used by `views.py`:
an id and a username (profile lookup is by username). -/
structure UserRec where
  id : Nat
  username : String
deriving DecidableEq, Repr

/-- The persistent store: one table per model. -/
structure DB where
  users : List UserRec
  categories : List CategoryRec
  locations : List LocationRec
  posts : List PostRec
  comments : List CommentRec
deriving DecidableEq, Repr

/-- The ORM lookup `category__is_published=True` on a post: the post's
category FK must be non-NULL and resolve to a category row whose
`is_published` is true (SQL join semantics over a nullable FK). -/
def categoryIsPublished (db : DB) (p : PostRec) : Bool :=
  match p.category with
  | none => false
  | some cid =>
    match db.categories.find? (fun c => c.id == cid) with
    | none => false
    | some c => c.is_published

/-- The filter of `get_posts_with_comments` (`views.py` lines 19-29):
`is_published=True, category__is_published=True, pub_date__lte=timezone.now()`. -/
def publishedPredicate (db : DB) (now : Nat) (p : PostRec) : Bool :=
  p.is_published && categoryIsPublished db p && decide (p.pub_date ≤ now)

/-- The `comment_count` annotation: `Count('comments')` for a post. -/
def commentCount (db : DB) (p : PostRec) : Nat :=
  (db.comments.filter (fun c => c.post == p.id)).length

/-- Ordering relation of `order_by('-pub_date')`: newest first. -/
def pubDateDescLE (a b : PostRec) : Prop := b.pub_date ≤ a.pub_date

instance : DecidableRel pubDateDescLE := fun a b => Nat.decLe b.pub_date a.pub_date

instance : IsTotal PostRec pubDateDescLE := ⟨fun a b => Nat.le_total b.pub_date a.pub_date⟩

instance : IsTrans PostRec pubDateDescLE := ⟨fun _ _ _ h h2 => Nat.le_trans h2 h⟩

/-- The queryset ordering `order_by('-pub_date')` as a stable sort. -/
def orderByPubDateDesc : List PostRec → List PostRec :=
  List.insertionSort pubDateDescLE

/-- `get_posts_with_comments()` (`views.py` lines 19-29): the published-posts
queryset used by the index listing and, filtered further, by the category
listing.  `select_related` and `annotate` do not change the rows returned. -/
def get_posts_with_comments (db : DB) (now : Nat) : List PostRec :=
  orderByPubDateDesc (db.posts.filter (publishedPredicate db now))

/-- `CategoryPostsView` (`views.py` lines 94-114): resolve the category by
slug with `is_published=True` (404 when absent, modelled as `none`), then
`get_posts_with_comments().filter(category=self.category)`. -/
def category_posts (db : DB) (now : Nat) (category_slug : String) :
    Option (List PostRec) :=
  match db.categories.find? (fun c => c.slug == category_slug && c.is_published) with
  | none => none
  | some cat =>
    some ((get_posts_with_comments db now).filter (fun p => p.category == some cat.id))

/-- `profile` (`views.py` lines 197-213): resolve the user by username (404
when absent), then list their posts — all of them when the requester is the
profile owner, only those passing the published filter otherwise — annotated
and ordered by `-pub_date`. -/
def profile_posts (db : DB) (now : Nat) (requester : Option Nat)
    (username : String) : Option (List PostRec) :=
  match db.users.find? (fun u => u.username == username) with
  | none => none
  | some profile_user =>
    if requester == some profile_user.id then
      some (orderByPubDateDesc
        (db.posts.filter (fun p => p.author == profile_user.id)))
    else
      some (orderByPubDateDesc
        (db.posts.filter (fun p =>
          p.author == profile_user.id && publishedPredicate db now p)))

/-- Result of resolving an object in a detail view: the object, or a 404. -/
inductive DetailResult where
  | found (p : PostRec)
  | notFound
deriving DecidableEq, Repr

/-- `PostDetailView.get_object` (`views.py` lines 62-72): fetch the post by
`post_id` (404 when absent); when the requester is not the author, refetch it
with `is_published=True, category__is_published=True, pub_date__lte=now`
via `get_object_or_404` (404 when the filter rejects it). -/
def post_detail_get_object (db : DB) (now : Nat) (requester : Option Nat)
    (post_id : Nat) : DetailResult :=
  match db.posts.find? (fun p => p.id == post_id) with
  | none => .notFound
  | some post =>
    if requester == some post.author then .found post
    else
      match db.posts.find? (fun p => p.id == post.id && publishedPredicate db now p) with
      | none => .notFound
      | some p => .found p

/-- Ordering relation of `Comment.Meta.ordering = ('created_at',)`: oldest
first. -/
def createdAtLE (a b : CommentRec) : Prop := a.created_at ≤ b.created_at

instance : DecidableRel createdAtLE := fun a b => Nat.decLe a.created_at b.created_at

instance : IsTotal CommentRec createdAtLE := ⟨fun a b => Nat.le_total a.created_at b.created_at⟩

instance : IsTrans CommentRec createdAtLE := ⟨fun _ _ _ => Nat.le_trans⟩

/-- The default ordering of `Comment.objects` (`models.py` lines 106-109). -/
def orderByCreatedAtAsc : List CommentRec → List CommentRec :=
  List.insertionSort createdAtLE

/-- The comments shown by `PostDetailView.get_context_data` (`views.py` lines
74-79): `Comment.objects.filter(post=post)`, returned in the model's default
`created_at` ascending order. -/
def detail_comments (db : DB) (post : PostRec) : List CommentRec :=
  orderByCreatedAtAsc (db.comments.filter (fun c => c.post == post.id))

/-- A sample published category, used by concrete witnesses. -/
def sampleCategory : CategoryRec :=
  { id := 1, title := "cat", description := "d", slug := "cats",
    is_published := true, created_at := 0 }

/-- A sample post in `sampleCategory`, published, dated 3. -/
def samplePost : PostRec :=
  { id := 1, author := 1, title := "a", text := "b", pub_date := 3,
    location := none, category := some 1, is_published := true, created_at := 0 }

/-- A sample database with one user, one category, one post. -/
def sampleDB : DB :=
  { users := [{ id := 1, username := "alice" }],
    categories := [sampleCategory],
    locations := [],
    posts := [samplePost],
    comments := [] }

example : get_posts_with_comments sampleDB 5 = [samplePost] := by decide

example : get_posts_with_comments sampleDB 2 = [] := by decide

/-- Modelled from the spec: `CommentForm` lives in `blog/forms.py`, which is
not among the sources (only `views.py` imports it); §4.3 of the spec says
comment submission "validates the text", so the form carries one text field. -/
structure CommentFormData where
  text : String
deriving DecidableEq, Repr

/-- Modelled from the spec: validity of a bound `CommentForm`.  `none` is an
unbound form (a GET request, where `request.POST or None` is `None`), which is
never valid; a bound form is valid when its required text is nonempty. -/
def commentFormValid : Option CommentFormData → Bool
  | none => false
  | some d => !(d.text == "")

/-- Modelled from the spec: `PostForm` lives in `blog/forms.py`, which is not
among the sources; §3 of the spec lists a post's editable fields as title,
text, publish timestamp, optional location and optional category. -/
structure PostFormData where
  title : String
  text : String
  pub_date : Nat
  location : Option Nat
  category : Option Nat
deriving DecidableEq, Repr

/-- Modelled from the spec: validity of a bound `PostForm` — the form is
bound and its required text fields are nonempty. -/
def postFormValid : Option PostFormData → Bool
  | none => false
  | some d => !(d.title == "") && !(d.text == "")

/-- `form.save()` on a `PostForm` bound to an existing post: the form fields
are replaced, everything else (id, author, `is_published`, `created_at`) is
kept. -/
def applyPostForm (d : PostFormData) (p : PostRec) : PostRec :=
  { p with title := d.title, text := d.text, pub_date := d.pub_date,
           location := d.location, category := d.category }

/-- The HTTP method of a request, where the handlers distinguish them. -/
inductive HttpMethod where
  | get
  | post
deriving DecidableEq, Repr

/-- A redirect target (`redirect(...)` in `views.py`). -/
inductive Target where
  | post_detail (post_id : Nat)
  | index
  | profileOf (user : Nat)
deriving DecidableEq, Repr

/-- A template rendered by a handler. -/
inductive Template where
  | createTemplate
  | commentTemplate
deriving DecidableEq, Repr

/-- What a handler sends back: a rendered template, a redirect, the
login redirect issued by `@login_required`, a 404, or the server error
produced by an uncaught exception (HTTP 500). -/
inductive Response where
  | render (t : Template)
  | redirectTo (t : Target)
  | loginRedirect
  | notFound
  | serverError
deriving DecidableEq, Repr

/-- `create_post` (`views.py` lines 117-127): `@login_required`; on a valid
form, save the post with `author = request.user` and redirect to the
requester's profile; otherwise render the form again.  `new_id` and
`new_created` stand for the database-assigned id and `auto_now_add` stamp. -/
def create_post (db : DB) (requester : Option Nat) (data : Option PostFormData)
    (new_id new_created : Nat) : DB × Response :=
  match requester with
  | none => (db, .loginRedirect)
  | some user =>
    match data with
    | some d =>
      if postFormValid (some d) then
        ({ db with posts := db.posts ++
            [{ id := new_id, author := user, title := d.title, text := d.text,
               pub_date := d.pub_date, location := d.location,
               category := d.category, is_published := true,
               created_at := new_created }] },
         .redirectTo (.profileOf user))
      else (db, .render .createTemplate)
    | none => (db, .render .createTemplate)

/-- `edit_post` (`views.py` lines 130-141): `@login_required`; 404 when the
post id is unknown; redirect to the detail page when the requester is not the
author; otherwise save the valid form, or render it again when invalid. -/
def edit_post (db : DB) (requester : Option Nat) (post_id : Nat)
    (data : Option PostFormData) : DB × Response :=
  match requester with
  | none => (db, .loginRedirect)
  | some user =>
    match db.posts.find? (fun p => p.id == post_id) with
    | none => (db, .notFound)
    | some post =>
      if !(user == post.author) then (db, .redirectTo (.post_detail post_id))
      else
        match data with
        | some d =>
          if postFormValid (some d) then
            ({ db with posts := db.posts.map (fun p => if p.id == post_id then applyPostForm d p else p) },
             .redirectTo (.post_detail post_id))
          else (db, .render .createTemplate)
        | none => (db, .render .createTemplate)

/-- Deletion of a `Post` row (`models.py`): `Comment.post` has
`on_delete=CASCADE`, so the row's comments are deleted with it. -/
def deletePostRow (db : DB) (pid : Nat) : DB :=
  { db with
    posts := db.posts.filter (fun p => !(p.id == pid)),
    comments := db.comments.filter (fun c => !(c.post == pid)) }

/-- `delete_post` (`views.py` lines 144-155): `@login_required`; 404 when the
post id is unknown; redirect to the detail page when the requester is not the
author; on POST delete the post and redirect to the index; on GET render the
confirmation page. -/
def delete_post (db : DB) (requester : Option Nat) (post_id : Nat)
    (method : HttpMethod) : DB × Response :=
  match requester with
  | none => (db, .loginRedirect)
  | some user =>
    match db.posts.find? (fun p => p.id == post_id) with
    | none => (db, .notFound)
    | some post =>
      if !(user == post.author) then (db, .redirectTo (.post_detail post_id))
      else
        match method with
        | .post => (deletePostRow db post_id, .redirectTo .index)
        | .get => (db, .render .createTemplate)

/-- `add_comment` (`views.py` lines 158-167): `@login_required`; 404 when the
post id is unknown; save a valid comment with `author = request.user`; in
every case redirect to the detail page — an invalid form is NOT rendered
again, the save is simply skipped. -/
def add_comment (db : DB) (requester : Option Nat) (post_id : Nat)
    (data : Option CommentFormData) (new_id new_created : Nat) : DB × Response :=
  match requester with
  | none => (db, .loginRedirect)
  | some user =>
    match db.posts.find? (fun p => p.id == post_id) with
    | none => (db, .notFound)
    | some post =>
      match data with
      | some d =>
        if commentFormValid (some d) then
          ({ db with comments := db.comments ++
              [{ id := new_id, text := d.text, post := post.id,
                 created_at := new_created, author := user }] },
           .redirectTo (.post_detail post_id))
        else (db, .redirectTo (.post_detail post_id))
      | none => (db, .redirectTo (.post_detail post_id))

/-- `edit_comment` (`views.py` lines 170-181): `@login_required`; 404 when the
comment id is unknown; redirect to the detail page when the requester is not
the comment's author; otherwise save the valid form, or render it again when
invalid. -/
def edit_comment (db : DB) (requester : Option Nat) (post_id comment_id : Nat)
    (data : Option CommentFormData) : DB × Response :=
  match requester with
  | none => (db, .loginRedirect)
  | some user =>
    match db.comments.find? (fun c => c.id == comment_id) with
    | none => (db, .notFound)
    | some comment =>
      if !(user == comment.author) then (db, .redirectTo (.post_detail post_id))
      else
        match data with
        | some d =>
          if commentFormValid (some d) then
            ({ db with comments := db.comments.map (fun c => if c.id == comment_id then { c with text := d.text } else c) },
             .redirectTo (.post_detail post_id))
          else (db, .render .commentTemplate)
        | none => (db, .render .commentTemplate)

/-- `delete_comment` (`views.py` lines 184-194): `@login_required`; 404 when
the comment id is unknown; redirect to the detail page when the requester is
not the comment's author; on POST delete the comment and redirect to the
detail page; on GET render the confirmation page. -/
def delete_comment (db : DB) (requester : Option Nat) (post_id comment_id : Nat)
    (method : HttpMethod) : DB × Response :=
  match requester with
  | none => (db, .loginRedirect)
  | some user =>
    match db.comments.find? (fun c => c.id == comment_id) with
    | none => (db, .notFound)
    | some comment =>
      if !(user == comment.author) then (db, .redirectTo (.post_detail post_id))
      else
        match method with
        | .post =>
          ({ db with comments := db.comments.filter (fun c => !(c.id == comment_id)) },
           .redirectTo (.post_detail post_id))
        | .get => (db, .render .commentTemplate)

/-- `PostDetailView.post` (`views.py` lines 81-91), as dispatched by the
framework.  The method is declared `def post(self, request)` with no way to
accept keyword arguments, while the detail route carries the post id
(`urls.py` is not among the sources; the spec lists the route as
`GET|POST /posts/{id}/`, and `pk_url_kwarg = post_id` at `views.py` line 60
together with `get_object` require the kwarg), so `View.dispatch` raises
`TypeError` on every POST before the body runs: the request ends in a server
error and the store is unchanged — no authentication check, no login
redirect, and no comment is ever persisted through this endpoint.  Had the
body been reachable, `comment.author = request.user` at line 86 would still
raise `ValueError` for an anonymous requester, since the author FK only
accepts a real user. -/
def post_detail_post (db : DB) (_now : Nat) (_requester : Option Nat)
    (_post_id : Nat) (_data : Option CommentFormData) (_new_id _new_created : Nat) :
    DB × Response :=
  (db, .serverError)

/-- Deletion of a `Location` row (`models.py`): `Post.location` has
`on_delete=SET_NULL`, so dependent posts survive with the reference nulled. -/
def deleteLocationRow (db : DB) (lid : Nat) : DB :=
  { db with
    locations := db.locations.filter (fun l => !(l.id == lid)),
    posts := db.posts.map
      (fun p => if p.location == some lid then { p with location := none } else p) }

/-- Deletion of a `Category` row (`models.py`): `Post.category` has
`on_delete=SET_NULL`, so dependent posts survive with the reference nulled. -/
def deleteCategoryRow (db : DB) (cid : Nat) : DB :=
  { db with
    categories := db.categories.filter (fun c => !(c.id == cid)),
    posts := db.posts.map
      (fun p => if p.category == some cid then { p with category := none } else p) }

/-- Deletion of a `User` row (`models.py`): `Post.author` and `Comment.author`
have `on_delete=CASCADE`, so the user's posts and comments are deleted, and
the deleted posts cascade to their remaining comments. -/
def deleteUserRow (db : DB) (uid : Nat) : DB :=
  { db with
    users := db.users.filter (fun u => !(u.id == uid)),
    posts := db.posts.filter (fun p => !(p.author == uid)),
    comments := db.comments.filter (fun c =>
      !(c.author == uid) &&
      !((db.posts.filter (fun p => p.author == uid)).any (fun p => p.id == c.post))) }


/-! ## Helper lemmas -/

/-- Sorting by `-pub_date` does not change which posts are in a queryset. -/
theorem mem_orderByPubDateDesc {p : PostRec} {l : List PostRec} :
    p ∈ orderByPubDateDesc l ↔ p ∈ l :=
  (List.perm_insertionSort pubDateDescLE l).mem_iff

/-- Sorting by `created_at` does not change which comments are in a
queryset. -/
theorem mem_orderByCreatedAtAsc {c : CommentRec} {l : List CommentRec} :
    c ∈ orderByCreatedAtAsc l ↔ c ∈ l :=
  (List.perm_insertionSort createdAtLE l).mem_iff

/-- A sample user, the author in the sample databases. -/
def sampleUser : UserRec := { id := 1, username := "alice" }

/-! ## C1 -/

/-- C1: for every post and request time, the public listings — the index
queryset, the category-page queryset and the profile queryset seen by a
non-owner — contain exactly the posts satisfying
`is_published = true AND category.is_published = true AND pub_date <= now`
(within the listing's scope: its category, resp. its profile owner); the
same predicate `publishedPredicate` governs all three. -/
theorem C1_public_listings_share_predicate (db : DB) (now : Nat) (p : PostRec)
    (category_slug : String) (cat : CategoryRec) (catList : List PostRec)
    (hfind : db.categories.find? (fun c => c.slug == category_slug && c.is_published) = some cat)
    (hcat : category_posts db now category_slug = some catList)
    (username : String) (pu : UserRec)
    (hu : db.users.find? (fun u => u.username == username) = some pu)
    (requester : Option Nat) (hreq : requester ≠ some pu.id)
    (profList : List PostRec)
    (hprof : profile_posts db now requester username = some profList) :
    (p ∈ get_posts_with_comments db now ↔
       p ∈ db.posts ∧ publishedPredicate db now p = true) ∧
    (p ∈ catList ↔
       p ∈ db.posts ∧ publishedPredicate db now p = true ∧ p.category = some cat.id) ∧
    (p ∈ profList ↔
       p ∈ db.posts ∧ p.author = pu.id ∧ publishedPredicate db now p = true) := by
  have hmain : ∀ q : PostRec, q ∈ get_posts_with_comments db now ↔
      q ∈ db.posts ∧ publishedPredicate db now q = true := by
    intro q
    rw [get_posts_with_comments, mem_orderByPubDateDesc, List.mem_filter]
  refine ⟨hmain p, ?_, ?_⟩
  · rw [category_posts, hfind] at hcat
    have hlist : catList = (get_posts_with_comments db now).filter (fun q => q.category == some cat.id) :=
      (Option.some.injEq _ _).mp hcat.symm
    rw [hlist, List.mem_filter, hmain p]
    simp [and_assoc]
  · have hne : (requester == some pu.id) = false := beq_eq_false_iff_ne.mpr hreq
    rw [profile_posts, hu] at hprof
    simp only [hne, Bool.false_eq_true, if_false] at hprof
    have hlist : profList = orderByPubDateDesc (db.posts.filter (fun q => q.author == pu.id && publishedPredicate db now q)) :=
      (Option.some.injEq _ _).mp hprof.symm
    rw [hlist, mem_orderByPubDateDesc, List.mem_filter]
    simp [and_assoc]

/-- Witness for C1 at a concrete database: the sample post is in all three
listings, and the characterization holds. -/
theorem C1_witness :
    (samplePost ∈ get_posts_with_comments sampleDB 5 ↔
       samplePost ∈ sampleDB.posts ∧ publishedPredicate sampleDB 5 samplePost = true) ∧
    (samplePost ∈ [samplePost] ↔
       samplePost ∈ sampleDB.posts ∧ publishedPredicate sampleDB 5 samplePost = true ∧
         samplePost.category = some sampleCategory.id) ∧
    (samplePost ∈ [samplePost] ↔
       samplePost ∈ sampleDB.posts ∧ samplePost.author = sampleUser.id ∧
         publishedPredicate sampleDB 5 samplePost = true) :=
  C1_public_listings_share_predicate sampleDB 5 samplePost "cats" sampleCategory
    [samplePost] (by decide) (by decide) "alice" sampleUser (by decide)
    none (by decide) [samplePost] (by decide)

/-! ## C2 -/

/-- A post with no category, visibility flag set, publish date in the past. -/
def noCategoryPost : PostRec :=
  { id := 2, author := 1, title := "n", text := "t", pub_date := 0,
    location := none, category := none, is_published := true, created_at := 0 }

/-- A database containing only `noCategoryPost`. -/
def noCategoryDB : DB :=
  { users := [sampleUser], categories := [], locations := [],
    posts := [noCategoryPost], comments := [] }

/-- C2 counterexample: a post with no category, `is_published = true` and
`pub_date <= now` is NOT in the public index listing — the
`category__is_published=True` lookup rejects a NULL category, so the claim
that the category condition applies only to its category "if any" fails. -/
theorem C2_counterexample :
    noCategoryPost ∈ noCategoryDB.posts ∧
    noCategoryPost.category = none ∧
    noCategoryPost.is_published = true ∧
    noCategoryPost.pub_date ≤ 7 ∧
    noCategoryPost ∉ get_posts_with_comments noCategoryDB 7 := by decide

/-- C2 amended: a post with no category never appears in the public index
listing, whatever its own flag and date: the filter
`category__is_published=True` requires an existing, published category. -/
theorem C2_amended_no_category_never_public (db : DB) (now : Nat) (p : PostRec)
    (h : p.category = none) : p ∉ get_posts_with_comments db now := by
  rw [get_posts_with_comments, mem_orderByPubDateDesc, List.mem_filter]
  rintro ⟨-, hpred⟩
  simp [publishedPredicate, categoryIsPublished, h] at hpred

/-- Witness for the amended C2 at a concrete database. -/
theorem C2_amended_witness :
    noCategoryPost.category = none ∧
    noCategoryPost ∉ get_posts_with_comments noCategoryDB 9 :=
  ⟨by decide, C2_amended_no_category_never_public noCategoryDB 9 noCategoryPost (by decide)⟩

/-! ## C3 -/

/-- C3: the author bypasses the visibility predicate — every post of the
profile owner is in the owner's own profile listing, and the detail view
resolves a post for its author, with no condition on `is_published`,
`category` or `pub_date`. -/
theorem C3_owner_bypasses_visibility (db : DB) (now : Nat)
    (username : String) (pu : UserRec)
    (hu : db.users.find? (fun u => u.username == username) = some pu)
    (profList : List PostRec)
    (hprof : profile_posts db now (some pu.id) username = some profList)
    (p : PostRec) (hp : p ∈ db.posts) (hauthor : p.author = pu.id)
    (post_id : Nat) (post : PostRec)
    (hfound : db.posts.find? (fun q => q.id == post_id) = some post) :
    p ∈ profList ∧
    post_detail_get_object db now (some post.author) post_id = .found post := by
  constructor
  · rw [profile_posts, hu] at hprof
    simp only [beq_self_eq_true, if_pos] at hprof
    have hlist : profList = orderByPubDateDesc (db.posts.filter (fun q => q.author == pu.id)) :=
      (Option.some.injEq _ _).mp hprof.symm
    rw [hlist, mem_orderByPubDateDesc, List.mem_filter]
    exact ⟨hp, by simp [hauthor]⟩
  · rw [post_detail_get_object, hfound]
    simp

/-- A post of the sample user that fails every part of the visibility
predicate: hidden, no category, future-dated. -/
def hiddenPost : PostRec :=
  { id := 3, author := 1, title := "h", text := "t", pub_date := 100,
    location := none, category := none, is_published := false, created_at := 0 }

/-- A database whose only post is `hiddenPost`. -/
def hiddenDB : DB :=
  { users := [sampleUser], categories := [], locations := [],
    posts := [hiddenPost], comments := [] }

/-- Witness for C3: the author sees their hidden, future-dated post in their
own profile listing and through the detail view. -/
theorem C3_witness :
    hiddenPost ∈ [hiddenPost] ∧
    post_detail_get_object hiddenDB 0 (some hiddenPost.author) 3 = .found hiddenPost :=
  C3_owner_bypasses_visibility hiddenDB 0 "alice" sampleUser (by decide)
    [hiddenPost] (by decide) hiddenPost (by decide) (by decide) 3 hiddenPost (by decide)

/-! ## C4 -/

/-- C4: for a requester who is not the author of any post carrying the
requested id, the detail view answers "not found" exactly when no post with
that id exists or every such post fails the visibility predicate. -/
theorem C4_detail_not_found_iff (db : DB) (now : Nat) (requester : Option Nat)
    (post_id : Nat)
    (hnon : ∀ p ∈ db.posts, p.id = post_id → requester ≠ some p.author) :
    post_detail_get_object db now requester post_id = .notFound ↔
      ¬ ∃ p, p ∈ db.posts ∧ p.id = post_id ∧ publishedPredicate db now p = true := by
  rw [post_detail_get_object]
  cases hfind : db.posts.find? (fun p => p.id == post_id) with
  | none =>
    simp only [true_iff]
    rintro ⟨p, hp, hid, -⟩
    have := List.find?_eq_none.mp hfind p hp
    simp [hid] at this
  | some post =>
    have hpostmem : post ∈ db.posts := List.mem_of_find?_eq_some hfind
    have hpostid : post.id = post_id := by simpa using List.find?_some hfind
    have hne : (requester == some post.author) = false :=
      beq_eq_false_iff_ne.mpr (hnon post hpostmem hpostid)
    simp only [hne, Bool.false_eq_true, if_false]
    cases hfind2 : db.posts.find? (fun p => p.id == post.id && publishedPredicate db now p) with
    | none =>
      simp only [true_iff]
      rintro ⟨p, hp, hid, hpred⟩
      have := List.find?_eq_none.mp hfind2 p hp
      rw [hid, ← hpostid] at this
      simp [hpred] at this
    | some q =>
      have hq : q ∈ db.posts := List.mem_of_find?_eq_some hfind2
      have hq2 : q.id = post.id ∧ publishedPredicate db now q = true := by
        simpa [Bool.and_eq_true] using List.find?_some hfind2
      simp only [iff_false, reduceCtorEq, false_iff, not_not]
      exact ⟨q, hq, by rw [hq2.1, hpostid], hq2.2⟩

/-- Witness for C4: for an anonymous requester at time 2, the sample post is
future-dated, and the detail view answers "not found". -/
theorem C4_witness :
    post_detail_get_object sampleDB 2 none 1 = .notFound ↔
      ¬ ∃ p, p ∈ sampleDB.posts ∧ p.id = 1 ∧ publishedPredicate sampleDB 2 p = true :=
  C4_detail_not_found_iff sampleDB 2 none 1 (by decide)

/-! ## C5 -/

/-- A second user, not the author of anything in the sample data. -/
def bob : UserRec := { id := 2, username := "bob" }

/-- A comment by the sample user on the sample post. -/
def sampleComment : CommentRec :=
  { id := 1, text := "hi", post := 1, created_at := 4, author := 1 }

/-- The sample database extended with a second user and a comment. -/
def mutDB : DB :=
  { users := [sampleUser, bob], categories := [sampleCategory], locations := [],
    posts := [samplePost], comments := [sampleComment] }

/-- C5: an authenticated requester who is not the resource's author gets a
redirect to the detail view from every edit/delete handler, and the database
is returned entirely unchanged — nothing is modified or deleted. -/
theorem C5_nonauthor_mutation_is_noop (db : DB) (u : Nat)
    (post_id : Nat) (post : PostRec)
    (hp : db.posts.find? (fun q => q.id == post_id) = some post)
    (hpu : u ≠ post.author)
    (comment_id : Nat) (c : CommentRec)
    (hc : db.comments.find? (fun q => q.id == comment_id) = some c)
    (hcu : u ≠ c.author)
    (pd : Option PostFormData) (cd : Option CommentFormData) (m m2 : HttpMethod) :
    edit_post db (some u) post_id pd = (db, .redirectTo (.post_detail post_id)) ∧
    delete_post db (some u) post_id m = (db, .redirectTo (.post_detail post_id)) ∧
    edit_comment db (some u) post_id comment_id cd = (db, .redirectTo (.post_detail post_id)) ∧
    delete_comment db (some u) post_id comment_id m2 = (db, .redirectTo (.post_detail post_id)) := by
  have h1 : (u == post.author) = false := beq_eq_false_iff_ne.mpr hpu
  have h2 : (u == c.author) = false := beq_eq_false_iff_ne.mpr hcu
  refine ⟨?_, ?_, ?_, ?_⟩ <;>
    simp [edit_post, delete_post, edit_comment, delete_comment, hp, hc, h1, h2]

/-- Witness for C5: user 2 cannot change or delete user 1's post or comment;
every handler redirects and returns the database unchanged. -/
theorem C5_witness :
    edit_post mutDB (some 2) 1 none = (mutDB, .redirectTo (.post_detail 1)) ∧
    delete_post mutDB (some 2) 1 .post = (mutDB, .redirectTo (.post_detail 1)) ∧
    edit_comment mutDB (some 2) 1 1 none = (mutDB, .redirectTo (.post_detail 1)) ∧
    delete_comment mutDB (some 2) 1 1 .post = (mutDB, .redirectTo (.post_detail 1)) :=
  C5_nonauthor_mutation_is_noop mutDB 2 1 samplePost (by decide) (by decide)
    1 sampleComment (by decide) (by decide) none none .post .post

/-! ## C6 -/

/-- C6 counterexample: an invalid comment submission to `add_comment` (empty
text) is answered with a redirect to the detail page, not with a re-render of
the form; nothing is persisted. -/
theorem C6_counterexample :
    commentFormValid (some { text := "" }) = false ∧
    add_comment mutDB (some 1) 1 (some { text := "" }) 9 9
      = (mutDB, Response.redirectTo (Target.post_detail 1)) := by decide

/-- C6 amended: an invalid form never persists anything; `create_post`,
`edit_post` and `edit_comment` re-render their form, `add_comment` instead
redirects to the detail page, and the inline detail-page submission never
reaches form validation at all — every POST to the detail view ends in a
server error with the store unchanged. -/
theorem C6_amended_invalid_form_no_persistence (db : DB) (now : Nat) (u : Nat)
    (new_id new_created : Nat)
    (pd : Option PostFormData) (hpd : postFormValid pd = false)
    (cd : Option CommentFormData) (hcd : commentFormValid cd = false)
    (post_id : Nat) (post : PostRec)
    (hp : db.posts.find? (fun q => q.id == post_id) = some post)
    (hau : u = post.author)
    (comment_id : Nat) (c : CommentRec)
    (hc : db.comments.find? (fun q => q.id == comment_id) = some c)
    (hcau : c.author = u)
    (requester : Option Nat) :
    create_post db (some u) pd new_id new_created = (db, .render .createTemplate) ∧
    edit_post db (some u) post_id pd = (db, .render .createTemplate) ∧
    edit_comment db (some u) post_id comment_id cd = (db, .render .commentTemplate) ∧
    post_detail_post db now requester post_id cd new_id new_created = (db, .serverError) ∧
    add_comment db (some u) post_id cd new_id new_created = (db, .redirectTo (.post_detail post_id)) := by
  refine ⟨?_, ?_, ?_, rfl, ?_⟩
  · cases pd with
    | none => simp [create_post]
    | some d => simp [create_post, hpd]
  · cases pd with
    | none => simp [edit_post, hp, hau]
    | some d => simp [edit_post, hp, hau, hpd]
  · cases cd with
    | none => simp [edit_comment, hc, hcau]
    | some d => simp [edit_comment, hc, hcau, hcd]
  · cases cd with
    | none => simp [add_comment, hp]
    | some d => simp [add_comment, hp, hcd]

/-- Witness for the amended C6: user 1, author of the sample post and
comment, submits unbound or empty forms; nothing changes. -/
theorem C6_amended_witness :
    create_post mutDB (some 1) none 9 9 = (mutDB, .render .createTemplate) ∧
    edit_post mutDB (some 1) 1 none = (mutDB, .render .createTemplate) ∧
    edit_comment mutDB (some 1) 1 1 (some { text := "" }) = (mutDB, .render .commentTemplate) ∧
    post_detail_post mutDB 5 (some 1) 1 (some { text := "" }) 9 9 = (mutDB, .serverError) ∧
    add_comment mutDB (some 1) 1 (some { text := "" }) 9 9 = (mutDB, .redirectTo (.post_detail 1)) :=
  C6_amended_invalid_form_no_persistence mutDB 5 1 9 9 none (by decide)
    (some { text := "" }) (by decide) 1 samplePost (by decide) (by decide)
    1 sampleComment (by decide) (by decide) (some 1)

/-! ## C7 -/

/-- C7: for the resource's author, a GET on a delete handler renders the
confirmation page and leaves the database untouched; only a POST deletes —
after it, no post (resp. comment) with the requested id remains. -/
theorem C7_delete_needs_post_method (db : DB) (u : Nat)
    (post_id : Nat) (post : PostRec)
    (hp : db.posts.find? (fun q => q.id == post_id) = some post)
    (hau : u = post.author)
    (comment_id : Nat) (c : CommentRec)
    (hc : db.comments.find? (fun q => q.id == comment_id) = some c)
    (hcau : c.author = u) :
    delete_post db (some u) post_id .get = (db, .render .createTemplate) ∧
    ((delete_post db (some u) post_id .post).1.posts.all (fun q => !(q.id == post_id))) = true ∧
    (delete_post db (some u) post_id .post).2 = .redirectTo .index ∧
    delete_comment db (some u) post_id comment_id .get = (db, .render .commentTemplate) ∧
    ((delete_comment db (some u) post_id comment_id .post).1.comments.all (fun q => !(q.id == comment_id))) = true ∧
    (delete_comment db (some u) post_id comment_id .post).2 = .redirectTo (.post_detail post_id) := by
  refine ⟨?_, ?_, ?_, ?_, ?_, ?_⟩
  · simp [delete_post, hp, hau]
  · simp only [delete_post, hp, hau, beq_self_eq_true, Bool.not_true, Bool.false_eq_true,
      if_false, deletePostRow]
    simp [List.all_eq_true, List.mem_filter]
  · simp [delete_post, hp, hau]
  · simp [delete_comment, hc, hcau]
  · simp only [delete_comment, hc, hcau, beq_self_eq_true, Bool.not_true, Bool.false_eq_true,
      if_false]
    simp [List.all_eq_true, List.mem_filter]
  · simp [delete_comment, hc, hcau]

/-- Witness for C7 at the sample database: GET renders, POST deletes. -/
theorem C7_witness :
    delete_post mutDB (some 1) 1 .get = (mutDB, .render .createTemplate) ∧
    ((delete_post mutDB (some 1) 1 .post).1.posts.all (fun q => !(q.id == 1))) = true ∧
    (delete_post mutDB (some 1) 1 .post).2 = .redirectTo .index ∧
    delete_comment mutDB (some 1) 1 1 .get = (mutDB, .render .commentTemplate) ∧
    ((delete_comment mutDB (some 1) 1 1 .post).1.comments.all (fun q => !(q.id == 1))) = true ∧
    (delete_comment mutDB (some 1) 1 1 .post).2 = .redirectTo (.post_detail 1) :=
  C7_delete_needs_post_method mutDB 1 1 samplePost (by decide) (by decide)
    1 sampleComment (by decide) (by decide)

/-! ## C8 -/

/-- C8: the comments shown with a post's detail view are sorted by creation
timestamp ascending, and they are exactly the comments of that post. -/
theorem C8_detail_comments_sorted_asc (db : DB) (post : PostRec) (c : CommentRec) :
    List.Sorted createdAtLE (detail_comments db post) ∧
    (c ∈ detail_comments db post ↔ c ∈ db.comments ∧ c.post = post.id) := by
  constructor
  · exact List.sorted_insertionSort createdAtLE _
  · rw [detail_comments, mem_orderByCreatedAtAsc, List.mem_filter]
    simp

/-! ## C9 -/

/-- C9: the `on_delete` semantics of the schema.  Deleting a Location or a
Category keeps every post, all fields unchanged except the deleted reference,
which becomes null; deleting a Post removes exactly its comments and no other;
deleting a User removes exactly that user's posts. -/
theorem C9_on_delete_semantics (db : DB) (lid cid pid uid : Nat)
    (p : PostRec) (hp : p ∈ db.posts) (c : CommentRec) (q : PostRec) :
    (∃ p1, p1 ∈ (deleteLocationRow db lid).posts ∧
       p1.location = (if p.location = some lid then none else p.location) ∧
       p1.id = p.id ∧ p1.author = p.author ∧ p1.title = p.title ∧
       p1.text = p.text ∧ p1.pub_date = p.pub_date ∧ p1.category = p.category ∧
       p1.is_published = p.is_published ∧ p1.created_at = p.created_at) ∧
    (∃ p2, p2 ∈ (deleteCategoryRow db cid).posts ∧
       p2.category = (if p.category = some cid then none else p.category) ∧
       p2.id = p.id ∧ p2.author = p.author ∧ p2.title = p.title ∧
       p2.text = p.text ∧ p2.pub_date = p.pub_date ∧ p2.location = p.location ∧
       p2.is_published = p.is_published ∧ p2.created_at = p.created_at) ∧
    (c ∈ (deletePostRow db pid).comments ↔ c ∈ db.comments ∧ c.post ≠ pid) ∧
    (q ∈ (deletePostRow db pid).posts ↔ q ∈ db.posts ∧ q.id ≠ pid) ∧
    (q ∈ (deleteUserRow db uid).posts ↔ q ∈ db.posts ∧ q.author ≠ uid) := by
  refine ⟨?_, ?_, ?_, ?_, ?_⟩
  · refine ⟨(fun r => if r.location == some lid then { r with location := none } else r) p,
      List.mem_map_of_mem _ hp, ?_⟩
    by_cases h : p.location = some lid <;> simp [h]
  · refine ⟨(fun r => if r.category == some cid then { r with category := none } else r) p,
      List.mem_map_of_mem _ hp, ?_⟩
    by_cases h : p.category = some cid <;> simp [h]
  · simp [deletePostRow, List.mem_filter]
  · simp [deletePostRow, List.mem_filter]
  · simp [deleteUserRow, List.mem_filter]

/-- A sample location. -/
def sampleLocation : LocationRec :=
  { id := 5, name := "loc", is_published := true, created_at := 0 }

/-- A post referencing `sampleLocation` and `sampleCategory`. -/
def locPost : PostRec :=
  { id := 4, author := 1, title := "lp", text := "t", pub_date := 1,
    location := some 5, category := some 1, is_published := true, created_at := 0 }

/-- A comment by user 2 on `locPost`. -/
def locComment : CommentRec :=
  { id := 2, text := "c2", post := 4, created_at := 1, author := 2 }

/-- A database exercising every foreign key of the schema. -/
def cascadeDB : DB :=
  { users := [sampleUser, bob], categories := [sampleCategory],
    locations := [sampleLocation], posts := [locPost], comments := [locComment] }

/-- Witness for C9 at a concrete database. -/
theorem C9_witness :
    (∃ p1, p1 ∈ (deleteLocationRow cascadeDB 5).posts ∧
       p1.location = (if locPost.location = some 5 then none else locPost.location) ∧
       p1.id = locPost.id ∧ p1.author = locPost.author ∧ p1.title = locPost.title ∧
       p1.text = locPost.text ∧ p1.pub_date = locPost.pub_date ∧ p1.category = locPost.category ∧
       p1.is_published = locPost.is_published ∧ p1.created_at = locPost.created_at) ∧
    (∃ p2, p2 ∈ (deleteCategoryRow cascadeDB 1).posts ∧
       p2.category = (if locPost.category = some 1 then none else locPost.category) ∧
       p2.id = locPost.id ∧ p2.author = locPost.author ∧ p2.title = locPost.title ∧
       p2.text = locPost.text ∧ p2.pub_date = locPost.pub_date ∧ p2.location = locPost.location ∧
       p2.is_published = locPost.is_published ∧ p2.created_at = locPost.created_at) ∧
    (locComment ∈ (deletePostRow cascadeDB 4).comments ↔
       locComment ∈ cascadeDB.comments ∧ locComment.post ≠ 4) ∧
    (locPost ∈ (deletePostRow cascadeDB 4).posts ↔
       locPost ∈ cascadeDB.posts ∧ locPost.id ≠ 4) ∧
    (locPost ∈ (deleteUserRow cascadeDB 1).posts ↔
       locPost ∈ cascadeDB.posts ∧ locPost.author ≠ 1) :=
  C9_on_delete_semantics cascadeDB 5 1 4 1 locPost (by decide) locComment locPost

/-! ## C10 -/

/-- C10 counterexample: an anonymous POST of valid comment text to the detail
page of a visible post does NOT persist a comment — the request ends in a
server error with the store unchanged (`def post(self, request)` rejects the
route's `post_id` kwarg at dispatch, and even the body's
`comment.author = request.user` could not accept the anonymous user), so the
claim that a valid submission "proceeds to persist a comment with the
(possibly anonymous) requester as author" fails. -/
theorem C10_counterexample :
    commentFormValid (some { text := "hey" }) = true ∧
    post_detail_get_object sampleDB 5 none 1 = .found samplePost ∧
    post_detail_post sampleDB 5 none 1 (some { text := "hey" }) 9 9
      = (sampleDB, Response.serverError) ∧
    sampleDB.comments = [] := by decide

/-- C10 amended: the inline comment submission of the detail view indeed
performs no authentication check and never answers with the login redirect —
unlike the dedicated `add_comment` handler, which sends every anonymous
request to login — but it persists nothing either: its signature cannot
accept the route's `post_id` keyword argument, so every POST to the detail
view raises `TypeError` and ends in a server error, the store unchanged. -/
theorem C10_amended_detail_post_always_errors (db : DB) (now : Nat)
    (post_id new_id new_created : Nat) (cd : Option CommentFormData)
    (requester : Option Nat) :
    post_detail_post db now requester post_id cd new_id new_created = (db, .serverError) ∧
    (post_detail_post db now requester post_id cd new_id new_created).2 ≠ Response.loginRedirect ∧
    add_comment db none post_id cd new_id new_created = (db, .loginRedirect) := by
  refine ⟨rfl, by simp [post_detail_post], ?_⟩
  simp [add_comment]
